import Mathlib

/-!
Verification of the AegisTest core (`app/utils.py`): the signature
extractor `parse_function_definition` and the input generator
`generate_test_inputs`, shallowly embedded in Lean.

Modelling conventions:
* Python integers are `ℤ`; Python floats are modelled as `ℚ` (all float
  arithmetic the generator performs is conversion from integers, `/ 2`,
  `/ 4`, addition and subtraction, which are exact); Python `//` on
  integers is `Int.fdiv` (floor division).
* Randomness (`random.choice`, `random.randint`, `random.uniform`,
  `random.choices`) is an explicit oracle `RNG` indexed by a step
  counter that is threaded through the computation, so the embedded
  functions are deterministic functions of the oracle.  `random.choice`
  always returns an element of its (non-empty) argument list;
  `random.randint a b` raises `ValueError` when `a > b` and otherwise
  returns a value in `[a, b]`; `random.uniform a b` returns
  `a + u * (b - a)` for a unit sample `u ∈ [0, 1]`.
* `utils.py` imports only `ast`, `random` and names from `typing`
  (lines 1-3); the module `string` is NOT imported, so evaluating
  `string.ascii_letters` raises `NameError` — modelled by
  `pyAsciiLetters`.
* Fallible computation is `Except PyErr (α × ℕ)` (result plus next
  oracle step); a raised exception aborts the whole call.
* For the extractor, the outcome of `ast.parse` is the input of the
  embedding (`Except ParseFailure PyModule`): a parse failure, or a
  module given as its list of statements in traversal order (`ast.walk`
  reaches top-level statements in order; no claim involves function
  definitions nested inside other statements).  Per the Python ≥ 3.9
  grammar used by the repository's stack, `ast.parse` stores the
  subscript's index expression directly in `Subscript.slice`; the
  deprecated wrapper node `ast.Index` (constructor `PyExpr.indexWrap`)
  is no longer produced by the parser, but the constructor is kept so
  that the source's `isinstance(..., ast.Index)` branch can be
  translated faithfully.
* A Python dict is an insertion-ordered association list
  (`dictInsert` overwrites in place); the Python function's return
  value distinguishes returning a list from the implicit `return None`
  (`Option`), and for the extractor returning the pair
  `(None, None)` from falling off the end (`ExtractResult`).
-/

namespace AegisTest

/-- Python runtime values, as far as the generator produces them. -/
inductive PyVal where
  | int (n : ℤ)
  | float (q : ℚ)
  | str (s : String)
  | bool (b : Bool)
  | list (xs : List PyVal)
  | dict (xs : List (PyVal × PyVal))
  | set (xs : List PyVal)
  | tuple (xs : List PyVal)
  | none

/-- Python exceptions that the embedded code can raise. -/
inductive PyErr where
  /-- `NameError`: the given global name is not defined. -/
  | nameError (missing : String)
  /-- `ValueError`, e.g. `random.randint` on an empty range. -/
  | valueError

/-- A parameter descriptor `{"name": ..., "type": ...}` as built by
`parse_function_definition` and consumed by `generate_test_inputs`. -/
structure Param where
  name : String
  type : String

/-- One generated test case: a Python dict from parameter name to value,
modelled as an insertion-ordered association list. -/
abbrev TestCase := List (String × PyVal)

/-- The keyword arguments of `generate_test_inputs`
(`num_tests=10, int_range=(-100, 100), float_range=(-10.0, 10.0),
string_length=10`). -/
structure GenConfig where
  numTests : ℕ := 10
  intRange : ℤ × ℤ := (-100, 100)
  floatRange : ℚ × ℚ := (-10, 10)
  stringLength : ℕ := 10

/-- The configuration with all keyword arguments left at their defaults. -/
def defaultConfig : GenConfig := {}

/-- Randomness oracle: step-indexed raw values for each kind of call the
source makes into the `random` module. -/
structure RNG where
  /-- raw value for `random.choice` on a list of the given length. -/
  choiceIdx : ℕ → ℕ → ℕ
  /-- raw value for `random.randint a b`. -/
  randIntVal : ℕ → ℤ → ℤ → ℤ
  /-- unit sample in `[0,1]` (clamped) for `random.uniform`. -/
  unitVal : ℕ → ℚ
  /-- result of `''.join(random.choices(letters, k=k))`. -/
  lettersVal : ℕ → ℕ → String

/-- An oracle whose `random.choice` always picks index `i` (mod the list
length), `randint` returns its lower bound and `uniform` its left end. -/
def pickRNG (i : ℕ) : RNG where
  choiceIdx := fun _ _ => i
  randIntVal := fun _ a _ => a
  unitVal := fun _ => 0
  lettersVal := fun _ _ => ""

/-- A fallible, oracle-stepped computation: an exception, or a result
together with the next oracle step. -/
abbrev PyRes (α : Type) := Except PyErr (α × ℕ)

/-- Python `s.startswith(pre)`, computed on the character list (Python
slicing and matching of `str` is by code point). -/
def pyStartsWith (s pre : String) : Bool :=
  List.isPrefixOf pre.data s.data

/-- The Python slice `s[a:-1]`: drop the first `a` characters and the
last one (empty-safe, like Python slicing). -/
def pySlice (s : String) (a : ℕ) : String :=
  String.mk ((s.data.drop a).dropLast)

/-- The module-level imports of `app/utils.py` (lines 1-3):
`import ast`, `import random`, `from typing import ...`.  `string` is
absent. -/
def utilsTopLevelImports : List String :=
  ["ast", "random", "List", "Dict", "Union", "Optional", "Set", "Tuple"]

/-- Whether the global name `string` resolves inside `utils.py`. -/
def stringModuleImported : Bool := utilsTopLevelImports.contains "string"

/-- Evaluating `string.ascii_letters` in `utils.py`: raises `NameError`
because `string` is not among the module's imports. -/
def pyAsciiLetters : Except PyErr String :=
  if stringModuleImported then
    .ok "abcdefghijklmnopqrstuvwxyzABCDEFGHIJKLMNOPQRSTUVWXYZ"
  else
    .error (.nameError "string")

/-- `random.choice xs` (for non-empty `xs`): returns an element of `xs`
chosen by the oracle, consuming one step. -/
def pyChoice {α : Type} (g : RNG) (t : ℕ) (xs : List α) (dflt : α) : α × ℕ :=
  (xs.getD (g.choiceIdx t xs.length % xs.length) dflt, t + 1)

/-- `random.randint a b`: `ValueError` when `a > b`, else a value in
`[a, b]` chosen by the oracle. -/
def pyRandInt (g : RNG) (t : ℕ) (a b : ℤ) : PyRes ℤ :=
  if a ≤ b then
    .ok (a + (g.randIntVal t a b - a) % (b - a + 1), t + 1)
  else
    .error .valueError

/-- `random.uniform a b = a + u * (b - a)` for a unit sample `u`. -/
def pyUniform (g : RNG) (t : ℕ) (a b : ℚ) : ℚ × ℕ :=
  (a + max 0 (min 1 (g.unitVal t)) * (b - a), t + 1)

/-- `''.join(random.choices(string.ascii_letters, k=k))`: first resolves
`string.ascii_letters` (which raises `NameError` here), then draws a
string from the oracle. -/
def pyRandLetters (g : RNG) (t : ℕ) (k : ℕ) : PyRes String :=
  match pyAsciiLetters with
  | .error e => .error e
  | .ok _ => .ok (g.lettersVal t k, t + 1)

/-- A Python list comprehension `[step() for _ in range(n)]`: run `step`
`n` times, threading the oracle counter, propagating exceptions. -/
def pyRepeat {α : Type} (step : ℕ → PyRes α) : ℕ → ℕ → PyRes (List α)
  | 0, t => .ok ([], t)
  | n + 1, t =>
    match step t with
    | .error e => .error e
    | .ok (v, t1) =>
      match pyRepeat step n t1 with
      | .error e => .error e
      | .ok (vs, t2) => .ok (v :: vs, t2)

/-- The `param_type == "int"` branch (utils.py lines 84-94): the
seven-candidate `random.choice` over the configured `int_range`.  The
list's two `random.randint` elements are evaluated (left to right)
before the choice is made. -/
def intBranch (g : RNG) (cfg : GenConfig) (t : ℕ) : PyRes PyVal :=
  match pyRandInt g t cfg.intRange.1
      (cfg.intRange.1 + (cfg.intRange.2 - cfg.intRange.1).fdiv 2) with
  | .error e => .error e
  | .ok (r1, t1) =>
    match pyRandInt g t1 (cfg.intRange.2.fdiv 2) cfg.intRange.2 with
    | .error e => .error e
    | .ok (r2, t2) =>
      let c := pyChoice g t2
        [cfg.intRange.1,
         cfg.intRange.1 + (cfg.intRange.2 - cfg.intRange.1).fdiv 4,
         0,
         cfg.intRange.2 - (cfg.intRange.2 - cfg.intRange.1).fdiv 4,
         cfg.intRange.2, r1, r2] cfg.intRange.1
      .ok (.int c.1, c.2)

/-- The `param_type == "float"` branch (utils.py lines 95-105).  NOTE:
the source computes every candidate from `float(int_range[0])` and
`float(int_range[1])` — `float_range` is not read here. -/
def floatBranch (g : RNG) (cfg : GenConfig) (t : ℕ) : PyRes PyVal :=
  let u1 := pyUniform g t (cfg.intRange.1 : ℚ)
    ((cfg.intRange.1 : ℚ) + ((cfg.intRange.2 : ℚ) - (cfg.intRange.1 : ℚ)) / 2)
  let u2 := pyUniform g u1.2 ((cfg.intRange.2 : ℚ) / 2) (cfg.intRange.2 : ℚ)
  let c := pyChoice g u2.2
    [(cfg.intRange.1 : ℚ),
     (cfg.intRange.1 : ℚ) + ((cfg.intRange.2 : ℚ) - (cfg.intRange.1 : ℚ)) / 4,
     0,
     (cfg.intRange.2 : ℚ) - ((cfg.intRange.2 : ℚ) - (cfg.intRange.1 : ℚ)) / 4,
     (cfg.intRange.2 : ℚ), u1.1, u2.1] (cfg.intRange.1 : ℚ)
  .ok (.float c.1, c.2)

/-- The `param_type == "str"` branch (utils.py lines 106-115): building
the sixth candidate evaluates `string.ascii_letters`, which raises
`NameError` before `random.choice` runs. -/
def strBranch (g : RNG) (cfg : GenConfig) (t : ℕ) : PyRes PyVal :=
  match pyRandLetters g t cfg.stringLength with
  | .error e => .error e
  | .ok (s, t1) =>
    let c := pyChoice g t1
      ["", "a", "hello", "This is a longer string.",
       "special_characters!@#$%^&*()", s] ""
    .ok (.str c.1, c.2)

/-- The `param_type == "bool"` branch (utils.py lines 116-117). -/
def boolBranch (g : RNG) (t : ℕ) : PyRes PyVal :=
  let c := pyChoice g t [true, false] true
  .ok (.bool c.1, c.2)

/-- The `param_type.startswith("list")` branch (utils.py lines 118-129);
`base_type = param_type[5:-1]`. -/
def listBranch (g : RNG) (tag : String) (t : ℕ) : PyRes PyVal :=
  let base := pySlice tag 5
  if base == "int" then
    match pyRepeat (fun t0 => pyRandInt g t0 0 10) 5 t with
    | .error e => .error e
    | .ok (vs, t1) => .ok (.list (vs.map PyVal.int), t1)
  else if base == "str" then
    match pyRepeat (fun t0 => pyRandLetters g t0 5) 3 t with
    | .error e => .error e
    | .ok (vs, t1) => .ok (.list (vs.map PyVal.str), t1)
  else if base == "float" then
    match pyRepeat (fun t0 => .ok (pyUniform g t0 0 10)) 3 t with
    | .error e => .error e
    | .ok (vs, t1) => .ok (.list (vs.map PyVal.float), t1)
  else if base == "bool" then
    match pyRepeat (fun t0 => .ok (pyChoice g t0 [true, false] true)) 3 t with
    | .error e => .error e
    | .ok (vs, t1) => .ok (.list (vs.map PyVal.bool), t1)
  else
    .ok (.list (List.replicate 5 (.int 0)), t)

/-- The `param_type.startswith("dict")` branch (utils.py lines 130-135);
`base_type = param_type[5:-1]`. -/
def dictBranch (tag : String) (t : ℕ) : PyRes PyVal :=
  let base := pySlice tag 5
  if base == "str, int" then
    .ok (.dict [(.str "key1", .int 1), (.str "key2", .int 2)], t)
  else
    .ok (.dict [], t)

/-- The `param_type.startswith("set")` branch (utils.py lines 136-143);
`base_type = param_type[4:-1]`; the Python `set` constructor
deduplicates. -/
def setBranch (g : RNG) (tag : String) (t : ℕ) : PyRes PyVal :=
  let base := pySlice tag 4
  if base == "int" then
    match pyRepeat (fun t0 => pyRandInt g t0 0 10) 5 t with
    | .error e => .error e
    | .ok (vs, t1) => .ok (.set (vs.dedup.map PyVal.int), t1)
  else if base == "str" then
    match pyRepeat (fun t0 => pyRandLetters g t0 5) 3 t with
    | .error e => .error e
    | .ok (vs, t1) => .ok (.set (vs.dedup.map PyVal.str), t1)
  else
    .ok (.set [], t)

/-- The `param_type.startswith("tuple")` branch (utils.py lines
144-153); `base_type = param_type[5:-1]` (note: `"tuple["` has six
characters, so for `tuple[T]` this slice keeps the opening bracket). -/
def tupleBranch (g : RNG) (tag : String) (t : ℕ) : PyRes PyVal :=
  let base := pySlice tag 5
  if base == "int" then
    match pyRepeat (fun t0 => pyRandInt g t0 0 10) 3 t with
    | .error e => .error e
    | .ok (vs, t1) => .ok (.tuple (vs.map PyVal.int), t1)
  else if base == "str" then
    match pyRepeat (fun t0 => pyRandLetters g t0 5) 3 t with
    | .error e => .error e
    | .ok (vs, t1) => .ok (.tuple (vs.map PyVal.str), t1)
  else if base == "float" then
    match pyRepeat (fun t0 => .ok (pyUniform g t0 0 10)) 3 t with
    | .error e => .error e
    | .ok (vs, t1) => .ok (.tuple (vs.map PyVal.float), t1)
  else
    .ok (.tuple (List.replicate 3 (.int 0)), t)

/-- The `param_type.startswith("Optional")` branch (utils.py lines
154-166); `base_type = param_type[9:-1]`; a fair coin decides `None`,
otherwise the full config ranges are used (`float` here does read
`float_range`). -/
def optionalBranch (g : RNG) (cfg : GenConfig) (tag : String) (t : ℕ) :
    PyRes PyVal :=
  let base := pySlice tag 9
  let c := pyChoice g t [true, false] true
  if c.1 then
    .ok (.none, c.2)
  else if base == "int" then
    match pyRandInt g c.2 cfg.intRange.1 cfg.intRange.2 with
    | .error e => .error e
    | .ok (v, t1) => .ok (.int v, t1)
  else if base == "float" then
    let u := pyUniform g c.2 cfg.floatRange.1 cfg.floatRange.2
    .ok (.float u.1, u.2)
  else if base == "str" then
    match pyRandLetters g c.2 cfg.stringLength with
    | .error e => .error e
    | .ok (s, t1) => .ok (.str s, t1)
  else
    .ok (.int 0, c.2)

/-- Dispatch on `param["type"]` — the `if`/`elif` chain of utils.py
lines 84-170, in source order.  `none` is the final `else` branch
(unknown tag), whose special control flow (record `0`, append the
partial case, `return`) is handled by the caller `genOneCase`. -/
def genParamValue (g : RNG) (cfg : GenConfig) (tag : String) (t : ℕ) :
    PyRes (Option PyVal) :=
  let wrap : PyRes PyVal → PyRes (Option PyVal) := fun r =>
    match r with
    | .error e => .error e
    | .ok (v, t1) => .ok (some v, t1)
  if tag == "int" then wrap (intBranch g cfg t)
  else if tag == "float" then wrap (floatBranch g cfg t)
  else if tag == "str" then wrap (strBranch g cfg t)
  else if tag == "bool" then wrap (boolBranch g t)
  else if pyStartsWith tag "list" then wrap (listBranch g tag t)
  else if pyStartsWith tag "dict" then wrap (dictBranch tag t)
  else if pyStartsWith tag "set" then wrap (setBranch g tag t)
  else if pyStartsWith tag "tuple" then wrap (tupleBranch g tag t)
  else if pyStartsWith tag "Optional" then wrap (optionalBranch g cfg tag t)
  else .ok (none, t)

/-- Python dict assignment `d[k] = v`: overwrite in place if the key
exists, else append. -/
def dictInsert (d : TestCase) (k : String) (v : PyVal) : TestCase :=
  if d.any (fun kv => kv.1 == k) then
    d.map (fun kv => if kv.1 == k then (k, v) else kv)
  else
    d ++ [(k, v)]

/-- The inner `for param in parameters` loop of `generate_test_inputs`:
fills the dict `inputs`; the returned flag is `true` when the
unknown-tag `else` branch fired, i.e. when the source's early
`return test_inputs` (lines 167-170) is reached. -/
def genOneCase (g : RNG) (cfg : GenConfig) :
    List Param → TestCase → ℕ → PyRes (TestCase × Bool)
  | [], inputs, t => .ok ((inputs, false), t)
  | p :: rest, inputs, t =>
    match genParamValue g cfg p.type t with
    | .error e => .error e
    | .ok (some v, t1) => genOneCase g cfg rest (dictInsert inputs p.name v) t1
    | .ok (none, t1) => .ok ((dictInsert inputs p.name (.int 0), true), t1)

/-- The outer `for _ in range(num_tests)` loop.  As in the source, a
completed `inputs` dict is appended to `test_inputs` ONLY inside the
unknown-tag branch, which then returns; when every tag is recognized
the completed case is dropped and, after the loop, the function falls
off its end (implicit `return None`, modelled as `Option.none`). -/
def genLoop (g : RNG) (cfg : GenConfig) (params : List Param) :
    ℕ → List TestCase → ℕ → PyRes (Option (List TestCase))
  | 0, _, t => .ok (none, t)
  | n + 1, acc, t =>
    match genOneCase g cfg params [] t with
    | .error e => .error e
    | .ok ((inputs, true), t1) => .ok (some (acc ++ [inputs]), t1)
    | .ok ((_, false), t1) => genLoop g cfg params n acc t1

/-- `generate_test_inputs(parameters, num_tests, int_range, float_range,
string_length)` (utils.py lines 60-170), as a function of the
randomness oracle. -/
def generate_test_inputs (g : RNG) (params : List Param) (cfg : GenConfig) :
    PyRes (Option (List TestCase)) :=
  genLoop g cfg params cfg.numTests [] 0

/-- The observable outcome of a call: the exception raised, or the
Python return value (`some` list of cases, or Python `None`). -/
def runGen (g : RNG) (params : List Param) (cfg : GenConfig) :
    Except PyErr (Option (List TestCase)) :=
  match generate_test_inputs g params cfg with
  | .error e => .error e
  | .ok (r, _) => .ok r

/-! ## The signature extractor (`parse_function_definition`) -/

/-- Python expressions, as far as the extractor inspects them.
`indexWrap` is the deprecated `ast.Index` wrapper: the source tests for
it (utils.py line 33), but `ast.parse` has not produced it since
Python 3.9 — the subscript's index expression is stored directly in
`slice`. -/
inductive PyExpr where
  | name (id : String)
  | tupleE (elts : List PyExpr)
  | subscript (value : PyExpr) (slice : PyExpr)
  | indexWrap (value : PyExpr)
  | other

/-- A formal parameter node (`ast.arg`): its name and its optional
type-hint expression (`arg.annotation` in the source). -/
structure PyArg where
  arg : String
  ann : Option PyExpr

/-- The `ast.arguments` record.  `args` are the ordinary
positional-or-keyword parameters; `defaults` are the default-value
expressions for the trailing positional parameters (an AST node is
never Python `None`, so `default is not None` in the source is exactly
"this parameter was paired with a declared default"). -/
structure PyArguments where
  posonlyargs : List PyArg := []
  args : List PyArg
  vararg : Option PyArg := none
  kwonlyargs : List PyArg := []
  kw_defaults : List (Option PyExpr) := []
  kwarg : Option PyArg := none
  defaults : List PyExpr := []

/-- An `ast.FunctionDef` node. -/
structure PyFunctionDef where
  name : String
  args : PyArguments

/-- A module statement, as far as `ast.walk` classification matters. -/
inductive PyStmt where
  | funcDef (fd : PyFunctionDef)
  | other

/-- A parsed module: its statements in traversal order. -/
abbrev PyModule := List PyStmt

/-- `ast.parse` failing with `SyntaxError`. -/
inductive ParseFailure where
  | parseFailed

/-- The first `ast.FunctionDef` met by the `for node in ast.walk(tree)`
loop (utils.py lines 19-20). -/
def firstFunctionDef : PyModule → Option PyFunctionDef
  | [] => none
  | .funcDef fd :: _ => some fd
  | .other :: rest => firstFunctionDef rest

/-- Resolution of one parameter's type hint into a tag string
(utils.py lines 29-48). -/
def resolveAnn : Option PyExpr → String
  | Option.none => "any"
  | some e =>
    match e with
    | .subscript value slice =>
      let base_type := match value with
        | .name id => id
        | _ => "any"
      match slice with
      | .indexWrap v =>
        -- `isinstance(arg.annotation.slice, ast.Index)`: dead on the
        -- Python ≥ 3.9 parser, which never builds `ast.Index` nodes.
        let sub_type := match v with
          | .name id => id
          | _ => "any"
        base_type ++ "[" ++ sub_type ++ "]"
      | .tupleE elts =>
        let sub_types := elts.map (fun elt => match elt with
          | .name id => id
          | _ => "any")
        base_type ++ "[" ++ String.intercalate ", " sub_types ++ "]"
      | _ => base_type
    | .name id => id
    | _ => "any"

/-- The per-parameter loop body of `parse_function_definition`
(utils.py lines 24-54): pair each arg positionally with its default
slot (left-padding the defaults with `None`), resolve the tag, and wrap
it in `Optional[...]` when a default is present. -/
def processArgs (ar : PyArguments) : List Param :=
  let padded : List (Option PyExpr) :=
    List.replicate (ar.args.length - ar.defaults.length) Option.none
      ++ ar.defaults.map some
  (ar.args.zip padded).map (fun ad =>
    let data_type := resolveAnn ad.1.ann
    let data_type := if ad.2.isSome then "Optional[" ++ data_type ++ "]"
      else data_type
    { name := ad.1.arg, type := data_type })

/-- The possible return values of `parse_function_definition`: the
tuple `return function_name, parameters` / `return None, None`, or the
implicit bare `None` from falling off the end of the function. -/
inductive ExtractResult where
  | tuple2 (name : Option String) (params : Option (List Param))
  | pyNone

/-- `parse_function_definition(code)` (utils.py lines 5-58), as a
function of the outcome of `ast.parse(code)`: `SyntaxError` is caught
and `(None, None)` returned; the first function definition yields the
name/parameter tuple; a module without function definitions falls off
the end of the function (implicit `return None`). -/
def parse_function_definition (parsed : Except ParseFailure PyModule) :
    ExtractResult :=
  match parsed with
  | .error _ => .tuple2 Option.none Option.none
  | .ok m =>
    match firstFunctionDef m with
    | some fd => .tuple2 (some fd.name) (some (processArgs fd.args))
    | Option.none => .pyNone

/-! ## Claim theorems -/

/-- Claim C1 (code bug): `generate_test_inputs` does NOT return exactly
`num_tests` complete cases.  With the single unrecognized-tag parameter
`{"x": "mystery"}` and `num_tests = 2` it returns after the first
synthesized case (the append and `return` sit inside the per-parameter
loop, utils.py lines 167-170), and with the recognized tag `bool` no
case is ever appended, so the call returns Python `None`. -/
theorem generate_count_violated (g : RNG) :
    runGen g [⟨"x", "mystery"⟩]
      { numTests := 2, intRange := (-100, 100), floatRange := (-10, 10),
        stringLength := 10 } =
      .ok (some [[("x", PyVal.int 0)]]) ∧
    runGen g [⟨"x", "bool"⟩]
      { numTests := 2, intRange := (-100, 100), floatRange := (-10, 10),
        stringLength := 10 } =
      .ok Option.none :=
  ⟨by rfl, by rfl⟩

/-- Claim C2 (code bug): the generator is not total.  Because `string`
is never imported by `utils.py`, the branches for `str`, `list[str]`
and `set[str]` raise `NameError` on every call, and `Optional[str]`
raises it whenever the coin chooses a populated value. -/
theorem generate_raises_nameError (g : RNG) :
    runGen g [⟨"s", "str"⟩] defaultConfig = .error (.nameError "string") ∧
    runGen g [⟨"s", "list[str]"⟩] defaultConfig =
      .error (.nameError "string") ∧
    runGen g [⟨"s", "set[str]"⟩] defaultConfig =
      .error (.nameError "string") ∧
    runGen (pickRNG 1) [⟨"s", "Optional[str]"⟩] defaultConfig =
      .error (.nameError "string") :=
  ⟨by rfl, by rfl, by rfl, by rfl⟩

/-- Claim C3 counterexample: with `int_range = (5, 10)` (so `0` lies
outside the range) the fixed candidate `0` can be generated for an
`int`-tagged parameter — the oracle `pickRNG 2` selects the third
candidate of the seven-way choice, and the produced value `0` violates
`5 ≤ v ∧ v ≤ 10`. -/
theorem int_value_escapes_range :
    runGen (pickRNG 2) [⟨"x", "int"⟩, ⟨"y", "mystery"⟩]
      { numTests := 1, intRange := (5, 10), floatRange := (-10, 10),
        stringLength := 10 } =
      .ok (some [[("x", PyVal.int 0), ("y", PyVal.int 0)]]) ∧
    ¬ ((5 : ℤ) ≤ 0 ∧ (0 : ℤ) ≤ 10) :=
  ⟨by rfl, by decide⟩

/-- Claim C4 (code bug): the `float` branch computes every candidate
from `int_range`, not `float_range`.  With `int_range = (-100, 100)`
and `float_range = (0, 1)`, the first fixed boundary candidate is
`-100.0` — far outside the configured float range. -/
theorem float_branch_reads_intRange :
    runGen (pickRNG 0) [⟨"x", "float"⟩, ⟨"y", "mystery"⟩]
      { numTests := 1, intRange := (-100, 100), floatRange := (0, 1),
        stringLength := 10 } =
      .ok (some [[("x", PyVal.float (-100)), ("y", PyVal.int 0)]]) ∧
    ¬ ((0 : ℚ) ≤ -100 ∧ (-100 : ℚ) ≤ 1) :=
  ⟨by rfl, by decide⟩

/-- Claim C5 counterexample: dispatch is case-SENSITIVE.  Under the
identical oracle and configuration, the tag `Int` falls through to the
unrecognized-tag branch (one truncated case, value `0`) while `int`
takes the integer branch (whose cases are then dropped, so the call
returns Python `None`): the letter case of the tag changes the
behaviour. -/
theorem case_variant_changes_branch :
    runGen (pickRNG 0) [⟨"x", "Int"⟩] defaultConfig =
      .ok (some [[("x", PyVal.int 0)]]) ∧
    runGen (pickRNG 0) [⟨"x", "int"⟩] defaultConfig = .ok Option.none ∧
    (some [[("x", PyVal.int 0)]] : Option (List TestCase)) ≠ Option.none :=
  ⟨by rfl, by rfl, by simp⟩

/-- Claim C5 amended: tag dispatch is case-sensitive exact matching on
the outer tag; a case-variant of a recognized tag (here `Int`, `STR`)
is treated as an unrecognized tag and hits the default branch, which
emits `0` and returns at once. -/
theorem dispatch_case_sensitive (g : RNG) (cfg : GenConfig)
    (h : 1 ≤ cfg.numTests) :
    runGen g [⟨"x", "Int"⟩] cfg = .ok (some [[("x", PyVal.int 0)]]) ∧
    runGen g [⟨"x", "STR"⟩] cfg = .ok (some [[("x", PyVal.int 0)]]) := by
  obtain ⟨n, hn⟩ : ∃ n, cfg.numTests = n + 1 := ⟨cfg.numTests - 1, by omega⟩
  constructor
  · unfold runGen generate_test_inputs
    rw [hn]
    rfl
  · unfold runGen generate_test_inputs
    rw [hn]
    rfl

/-- Witness for `dispatch_case_sensitive` at a concrete oracle and the
default configuration. -/
theorem dispatch_case_sensitive_witness :
    runGen (pickRNG 3) [⟨"x", "Int"⟩] defaultConfig =
      .ok (some [[("x", PyVal.int 0)]]) ∧
    runGen (pickRNG 3) [⟨"x", "STR"⟩] defaultConfig =
      .ok (some [[("x", PyVal.int 0)]]) :=
  dispatch_case_sensitive (pickRNG 3) defaultConfig (by decide)

/-- Claim C6 (code bug): for `tuple[int]` the slice `param_type[5:-1]`
keeps the opening bracket (`"[int"`), so the recognized-`int` arm is
unreachable and the branch always emits the zero-filled fixed-arity
tuple, for every oracle. -/
theorem tuple_int_always_zero_filled (g : RNG) :
    runGen g [⟨"x", "tuple[int]"⟩, ⟨"y", "mystery"⟩]
      { numTests := 1, intRange := (-100, 100), floatRange := (-10, 10),
        stringLength := 10 } =
      .ok (some [[("x", PyVal.tuple [.int 0, .int 0, .int 0]),
                  ("y", PyVal.int 0)]]) ∧
    pySlice "tuple[int]" 5 = "[int" :=
  ⟨by rfl, by rfl⟩

/-- Claim C8 (code bug): a subscripted hint with a single bare-name
inner argument resolves to just the outer name.  On the Python ≥ 3.9
parser the slice of `list[int]` is the `Name` node `int`, not an
`ast.Index` wrapper, so the extractor's `Index` arm is dead and the
fallthrough returns the base type: the tag is `"list"`, not
`"list[int]"` (the repository's own test asserts `"list[int]"`). -/
theorem single_subscript_loses_inner :
    parse_function_definition (.ok [.funcDef ⟨"process_numbers",
      { args := [⟨"numbers",
          some (.subscript (.name "list") (.name "int"))⟩] }⟩]) =
      .tuple2 (some "process_numbers") (some [⟨"numbers", "list"⟩]) ∧
    ("list" : String) ≠ "list[int]" :=
  ⟨by rfl, by decide⟩

/-- Claim C9 (code bug): unparseable text is caught and yields the
tuple `(None, None)`, but a module with zero function definitions falls
off the end of the function and yields the bare `None` — a different
value than the documented `(None, None)` pair. -/
theorem zero_defs_returns_bare_none :
    parse_function_definition (.error .parseFailed) =
      .tuple2 Option.none Option.none ∧
    parse_function_definition (.ok [PyStmt.other]) = ExtractResult.pyNone ∧
    ExtractResult.pyNone ≠ .tuple2 Option.none Option.none :=
  ⟨by rfl, by rfl, fun h => nomatch h⟩

/-- The padded default list built by `parse_function_definition`
(utils.py line 26) is never shorter than the parameter list. -/
lemma padded_defaults_long_enough (ar : PyArguments) :
    ar.args.length ≤
      (List.replicate (ar.args.length - ar.defaults.length)
          (Option.none (α := PyExpr))
        ++ ar.defaults.map some).length := by
  simp [List.length_append, List.length_replicate, List.length_map]
  omega

/-- `processArgs` yields one descriptor per ordinary positional
parameter. -/
lemma processArgs_length (ar : PyArguments) :
    (processArgs ar).length = ar.args.length := by
  unfold processArgs
  simp only [List.length_map, List.length_zip, List.length_append,
    List.length_replicate, List.length_map]
  omega

/-- Claim C10: the extractor emits descriptors exactly for the
ordinary positional parameters (`node.args.args`), in order; the
`*args`, `**kwargs` and keyword-only entries of the signature never
contribute a descriptor. -/
theorem descriptors_only_positional (nm : String) (ar : PyArguments) :
    parse_function_definition (.ok [.funcDef ⟨nm, ar⟩]) =
      .tuple2 (some nm) (some (processArgs ar)) ∧
    (processArgs ar).map Param.name = ar.args.map PyArg.arg := by
  refine ⟨rfl, ?_⟩
  unfold processArgs
  rw [List.map_map]
  have hlen := padded_defaults_long_enough ar
  calc (ar.args.zip _).map _
      = (ar.args.zip _).map (PyArg.arg ∘ Prod.fst) := by
        apply List.map_congr_left
        intro ad _
        rfl
    _ = ((ar.args.zip _).map Prod.fst).map PyArg.arg := by
        rw [List.map_map]
    _ = ar.args.map PyArg.arg := by
        rw [List.map_fst_zip _ _ hlen]

/-- Claim C7: a parameter's resolved tag carries the `Optional[...]`
wrapper exactly when its position falls in the trailing window sized by
the number of declared defaults (and the wrapped tag is whatever the
annotation-free resolution gives — `any` included). -/
theorem optional_iff_trailing_default (nm : String) (ar : PyArguments)
    (i : ℕ) (h : i < ar.args.length) :
    parse_function_definition (.ok [.funcDef ⟨nm, ar⟩]) =
      .tuple2 (some nm) (some (processArgs ar)) ∧
    ((processArgs ar).getD i ⟨"", ""⟩).type =
      (if ar.args.length - ar.defaults.length ≤ i
       then "Optional[" ++ resolveAnn ((ar.args.getD i ⟨"", Option.none⟩).ann)
              ++ "]"
       else resolveAnn ((ar.args.getD i ⟨"", Option.none⟩).ann)) := by
  refine ⟨rfl, ?_⟩
  have hlen' : i < (processArgs ar).length := by rw [processArgs_length]; exact h
  rw [List.getD_eq_getElem _ _ hlen', List.getD_eq_getElem _ _ h]
  unfold processArgs
  simp only [List.getElem_map, List.getElem_zip, List.getElem_append]
  by_cases hw : ar.args.length - ar.defaults.length ≤ i
  · have hidx : ¬ i < (List.replicate (ar.args.length - ar.defaults.length)
        (Option.none (α := PyExpr))).length := by
      simp only [List.length_replicate]
      omega
    rw [if_pos hw, dif_neg hidx]
    simp
  · have hidx : i < (List.replicate (ar.args.length - ar.defaults.length)
        (Option.none (α := PyExpr))).length := by
      simp only [List.length_replicate]
      omega
    rw [if_neg hw, dif_pos hidx]
    simp

/-- Witness for `optional_iff_trailing_default`: in
`def f(x, y=...)` the second parameter (inside the trailing window of
the one declared default, with no type hint) resolves to
`Optional[any]`. -/
theorem optional_iff_trailing_default_witness :
    parse_function_definition (.ok [.funcDef ⟨"f",
      { args := [⟨"x", Option.none⟩, ⟨"y", Option.none⟩],
        defaults := [PyExpr.other] }⟩]) =
      .tuple2 (some "f")
        (some (processArgs
          { args := [⟨"x", Option.none⟩, ⟨"y", Option.none⟩],
            defaults := [PyExpr.other] })) ∧
    ((processArgs
        { args := [⟨"x", Option.none⟩, ⟨"y", Option.none⟩],
          defaults := [PyExpr.other] }).getD 1 ⟨"", ""⟩).type =
      "Optional[any]" :=
  optional_iff_trailing_default "f"
    { args := [⟨"x", Option.none⟩, ⟨"y", Option.none⟩],
      defaults := [PyExpr.other] } 1 (by decide)

/-! ## Range analysis of the integer branch -/

/-- `random.choice` really picks an element of its list. -/
lemma pyChoice_mem {α : Type} (g : RNG) (t : ℕ) (xs : List α) (dflt : α)
    (h : xs ≠ []) : (pyChoice g t xs dflt).1 ∈ xs := by
  unfold pyChoice
  have hlen : 0 < xs.length := List.length_pos.mpr h
  have hidx : g.choiceIdx t xs.length % xs.length < xs.length :=
    Nat.mod_lt _ hlen
  rw [List.getD_eq_getElem _ _ hidx]
  exact List.getElem_mem hidx

/-- A successful `random.randint a b` call yields a value in `[a, b]`. -/
lemma pyRandInt_ok_bounds {g : RNG} {t : ℕ} {a b r : ℤ} {t1 : ℕ}
    (hab : a ≤ b) (h : pyRandInt g t a b = .ok (r, t1)) :
    a ≤ r ∧ r ≤ b := by
  unfold pyRandInt at h
  rw [if_pos hab] at h
  have hr : r = a + (g.randIntVal t a b - a) % (b - a + 1) := by
    cases h
    rfl
  have h1 : 0 ≤ (g.randIntVal t a b - a) % (b - a + 1) :=
    Int.emod_nonneg _ (by omega)
  have h2 : (g.randIntVal t a b - a) % (b - a + 1) < b - a + 1 :=
    Int.emod_lt_of_pos _ (by omega)
  omega

/-- Every value the `int` branch can return lies in the configured
integer range, provided that range contains `0` (the branch offers the
fixed candidate `0` and the sub-range `[hi // 2, hi]`, both of which
stay inside `[lo, hi]` exactly when `lo ≤ 0 ≤ hi`). -/
lemma intBranch_ok_range {g : RNG} {cfg : GenConfig} {t t1 : ℕ} {v : PyVal}
    (hlo : cfg.intRange.1 ≤ 0) (hhi : 0 ≤ cfg.intRange.2)
    (h : intBranch g cfg t = .ok (v, t1)) :
    ∃ n : ℤ, v = .int n ∧ cfg.intRange.1 ≤ n ∧ n ≤ cfg.intRange.2 := by
  unfold intBranch at h
  set lo := cfg.intRange.1 with hlo_def
  set hi := cfg.intRange.2 with hhi_def
  clear_value lo hi
  have hq2a : (0 : ℤ) ≤ (hi - lo).fdiv 2 := Int.fdiv_nonneg (by omega) (by omega)
  have hq2b : (hi - lo).fdiv 2 ≤ hi - lo := by
    rw [Int.fdiv_eq_ediv _ (by omega)]
    exact Int.ediv_le_self _ (by omega)
  have hq4a : (0 : ℤ) ≤ (hi - lo).fdiv 4 := Int.fdiv_nonneg (by omega) (by omega)
  have hq4b : (hi - lo).fdiv 4 ≤ hi - lo := by
    rw [Int.fdiv_eq_ediv _ (by omega)]
    exact Int.ediv_le_self _ (by omega)
  have hh2a : (0 : ℤ) ≤ hi.fdiv 2 := Int.fdiv_nonneg (by omega) (by omega)
  have hh2b : hi.fdiv 2 ≤ hi := by
    rw [Int.fdiv_eq_ediv _ (by omega)]
    exact Int.ediv_le_self _ (by omega)
  cases hr1 : pyRandInt g t lo (lo + (hi - lo).fdiv 2) with
  | error e => rw [hr1] at h; exact absurd h (by simp)
  | ok rt1 =>
    obtain ⟨r1, t2⟩ := rt1
    have hb1 := pyRandInt_ok_bounds (by omega) hr1
    rw [hr1] at h
    dsimp only at h
    cases hr2 : pyRandInt g t2 (hi.fdiv 2) hi with
    | error e => rw [hr2] at h; exact absurd h (by simp)
    | ok rt2 =>
      obtain ⟨r2, t3⟩ := rt2
      have hb2 := pyRandInt_ok_bounds (by omega) hr2
      rw [hr2] at h
      dsimp only at h
      have hv : v = .int (pyChoice g t3
          [lo, lo + (hi - lo).fdiv 4, 0, hi - (hi - lo).fdiv 4, hi, r1, r2]
          lo).1 := by
        cases h
        rfl
      have hmem := pyChoice_mem g t3
        [lo, lo + (hi - lo).fdiv 4, 0, hi - (hi - lo).fdiv 4, hi, r1, r2]
        lo (by simp)
      refine ⟨_, hv, ?_⟩
      simp only [List.mem_cons, List.not_mem_nil, or_false] at hmem
      rcases hmem with hc | hc | hc | hc | hc | hc | hc <;> rw [hc] <;>
        constructor <;> omega

/-! ## What a produced test case can contain -/

/-- A value the per-parameter dispatch can associate with a tag: either
a recognized-branch value (`some`), or the default branch's `0`. -/
def ParamPossible (g : RNG) (cfg : GenConfig) (tag : String) (v : PyVal) :
    Prop :=
  ∃ t t1 ov, genParamValue g cfg tag t = .ok (ov, t1) ∧
    v = ov.getD (PyVal.int 0)

/-- An entry of `d[k] = v` comes from `d` or is the new pair. -/
lemma dictInsert_mem {d : TestCase} {k : String} {v : PyVal}
    {kv : String × PyVal} (h : kv ∈ dictInsert d k v) :
    kv ∈ d ∨ kv = (k, v) := by
  unfold dictInsert at h
  by_cases hc : d.any (fun kv => kv.1 == k)
  · rw [if_pos hc] at h
    obtain ⟨kv0, hkv0, heq⟩ := List.mem_map.mp h
    by_cases h1 : kv0.1 == k
    · rw [if_pos h1] at heq
      exact Or.inr heq.symm
    · rw [if_neg h1] at heq
      exact Or.inl (heq ▸ hkv0)
  · rw [if_neg hc] at h
    rcases List.mem_append.mp h with h | h
    · exact Or.inl h
    · exact Or.inr (by simpa using h)

/-- Every entry of the dict built by the per-parameter loop either was
already present or was produced for one of the listed parameters by the
dispatch on its tag. -/
lemma genOneCase_mem (g : RNG) (cfg : GenConfig) (ps : List Param) :
    ∀ (inputs : TestCase) (t : ℕ) (tc : TestCase) (e : Bool) (t1 : ℕ),
      genOneCase g cfg ps inputs t = .ok ((tc, e), t1) →
      ∀ kv ∈ tc, kv ∈ inputs ∨
        ∃ p ∈ ps, kv.1 = p.name ∧ ParamPossible g cfg p.type kv.2 := by
  induction ps with
  | nil =>
    intro inputs t tc e t1 h kv hkv
    simp only [genOneCase] at h
    obtain ⟨⟨rfl, -⟩, -⟩ : (inputs = tc ∧ false = e) ∧ t = t1 := by
      cases h
      exact ⟨⟨rfl, rfl⟩, rfl⟩
    exact Or.inl hkv
  | cons p rest ih =>
    intro inputs t tc e t1 h kv hkv
    simp only [genOneCase] at h
    cases hg : genParamValue g cfg p.type t with
    | error e2 => rw [hg] at h; exact absurd h (by simp)
    | ok vt =>
      obtain ⟨ov, t2⟩ := vt
      rw [hg] at h
      cases ov with
      | some v =>
        rcases ih (dictInsert inputs p.name v) t2 tc e t1 h kv hkv with
          hin | ⟨q, hq, hk1, hk2⟩
        · rcases dictInsert_mem hin with hin | hkveq
          · exact Or.inl hin
          · refine Or.inr ⟨p, List.mem_cons_self p rest, ?_, ?_⟩
            · rw [hkveq]
            · rw [hkveq]
              exact ⟨t, t2, some v, hg, rfl⟩
        · exact Or.inr ⟨q, List.mem_cons_of_mem p hq, hk1, hk2⟩
      | none =>
        have htc : dictInsert inputs p.name (.int 0) = tc := by
          cases h
          rfl
        rcases dictInsert_mem (htc ▸ hkv) with hin | hkveq
        · exact Or.inl hin
        · refine Or.inr ⟨p, List.mem_cons_self p rest, ?_, ?_⟩
          · rw [hkveq]
          · rw [hkveq]
            exact ⟨t, t2, Option.none, hg, rfl⟩

/-- Every case the outer loop ever returns was built by one inner-loop
run that ended in the early-return branch (starting from the empty
dict). -/
lemma genLoop_mem (g : RNG) (cfg : GenConfig) (params : List Param)
    (n : ℕ) :
    ∀ (acc : List TestCase) (t : ℕ) (cases1 : List TestCase) (t1 : ℕ),
      genLoop g cfg params n acc t = .ok (some cases1, t1) →
      ∀ tc ∈ cases1, tc ∈ acc ∨
        ∃ t0 t2, genOneCase g cfg params [] t0 = .ok ((tc, true), t2) := by
  induction n with
  | zero =>
    intro acc t cases1 t1 h
    exact absurd h (by simp [genLoop])
  | succ n ih =>
    intro acc t cases1 t1 h
    simp only [genLoop] at h
    cases hg : genOneCase g cfg params [] t with
    | error e => rw [hg] at h; exact absurd h (by simp)
    | ok r =>
      obtain ⟨⟨inputs, early⟩, t2⟩ := r
      rw [hg] at h
      cases early with
      | false => exact fun tc htc => ih acc t2 cases1 t1 h tc htc
      | true =>
        have hcase : acc ++ [inputs] = cases1 ∧ t2 = t1 := by
          cases h
          exact ⟨rfl, rfl⟩
        intro tc htc
        rcases List.mem_append.mp (hcase.1 ▸ htc) with hin | hone
        · exact Or.inl hin
        · have htceq : tc = inputs := by simpa using hone
          exact Or.inr ⟨t, t2, htceq ▸ hg⟩

/-- Claim C3 amended: whenever the configured integer range contains
`0` (`lo ≤ 0 ≤ hi`), every value that `generate_test_inputs` actually
returns for a parameter tagged `int` lies in `[lo, hi]`. -/
theorem int_values_in_range_when_zero_in_range (g : RNG) (cfg : GenConfig)
    (params : List Param) (cases1 : List TestCase) (tc : TestCase)
    (nm : String) (v : PyVal)
    (hlo : cfg.intRange.1 ≤ 0) (hhi : 0 ≤ cfg.intRange.2)
    (hnames : ∀ p ∈ params, p.name = nm → p.type = "int")
    (hrun : runGen g params cfg = .ok (some cases1))
    (htc : tc ∈ cases1) (hv : (nm, v) ∈ tc) :
    ∃ n : ℤ, v = .int n ∧ cfg.intRange.1 ≤ n ∧ n ≤ cfg.intRange.2 := by
  unfold runGen at hrun
  cases hg : generate_test_inputs g params cfg with
  | error e => rw [hg] at hrun; exact absurd hrun (by simp)
  | ok rt =>
    obtain ⟨r, t1⟩ := rt
    rw [hg] at hrun
    have hr : r = some cases1 := by
      cases hrun
      rfl
    subst hr
    unfold generate_test_inputs at hg
    rcases genLoop_mem g cfg params cfg.numTests [] 0 cases1 t1 hg tc htc with
      habs | ⟨t0, t2, hone⟩
    · exact absurd habs (by simp)
    · rcases genOneCase_mem g cfg params [] t0 tc true t2 hone (nm, v) hv with
        habs | ⟨p, hp, hname, hposs⟩
      · exact absurd habs (by simp)
      · have hname' : nm = p.name := hname
        have htype := hnames p hp hname'.symm
        rw [htype] at hposs
        obtain ⟨t3, t4, ov, hgen, hval⟩ := hposs
        have hval' : v = ov.getD (PyVal.int 0) := hval
        simp only [genParamValue, beq_self_eq_true, if_true] at hgen
        cases hib : intBranch g cfg t3 with
        | error e => rw [hib] at hgen; exact absurd hgen (by simp)
        | ok wt =>
          obtain ⟨w, t5⟩ := wt
          rw [hib] at hgen
          have hov : some w = ov ∧ t5 = t4 := by
            cases hgen
            exact ⟨rfl, rfl⟩
          rcases intBranch_ok_range hlo hhi hib with ⟨n, hwn, hn1, hn2⟩
          refine ⟨n, ?_, hn1, hn2⟩
          rw [hval', ← hov.1, Option.getD_some]
          exact hwn

/-- Witness for `int_values_in_range_when_zero_in_range`: with
`int_range = (-4, 8)` and the oracle picking the first candidate, the
generated value for `x` is `-4`, inside the range. -/
theorem int_values_in_range_witness :
    ∃ n : ℤ, PyVal.int (-4) = PyVal.int n ∧ (-4 : ℤ) ≤ n ∧ n ≤ 8 :=
  int_values_in_range_when_zero_in_range (pickRNG 0)
    { numTests := 1, intRange := (-4, 8), floatRange := (-10, 10),
      stringLength := 10 }
    [⟨"x", "int"⟩, ⟨"y", "mystery"⟩]
    [[("x", PyVal.int (-4)), ("y", PyVal.int 0)]]
    [("x", PyVal.int (-4)), ("y", PyVal.int 0)] "x" (PyVal.int (-4))
    (by norm_num) (by norm_num)
    (by
      intro p hp hname
      rcases List.mem_cons.mp hp with rfl | hp
      · rfl
      · rcases List.mem_cons.mp hp with rfl | hp
        · exact absurd hname (by decide)
        · exact absurd hp (by simp))
    (by rfl) (by simp) (by simp)

end AegisTest
